import Mathlib

/-!
Verification of the Namecheap MCP server core (`src/namecheap-client.ts` and
`src/tools/domains.ts`) against its natural-language specification.

The development has three layers:
* a zone-semantics model of the DNS read-modify-write operations
  (`getDNSRecords` / `setDNSRecords` / `addDNSRecord` / `updateDNSRecord` /
  `deleteDNSRecord`), where the remote registrar is modelled as storage that
  keeps exactly the record data carried by the posted `setHosts` parameters;
* a gateway model of `makeRequest` over an xml2js-shaped response tree,
  including the error-extraction and error-wrapping paths;
* a model of the `register-domain` tool handler built on the gateway.
-/

/-- The enumerated DNS record types of the `DNSRecord` interface. -/
inductive RecordType where
  | A
  | AAAA
  | CNAME
  | MX
  | TXT
  | NS
  | SRV
  | CAA
deriving DecidableEq, Repr

/-- String form of a record type, as sent in the `RecordType{i}` parameter. -/
def typeToString : RecordType → String
  | .A => "A"
  | .AAAA => "AAAA"
  | .CNAME => "CNAME"
  | .MX => "MX"
  | .TXT => "TXT"
  | .NS => "NS"
  | .SRV => "SRV"
  | .CAA => "CAA"

/-- The `DNSRecord` interface: optional remote record identifier, host name,
type, address, optional MX preference and optional TTL (both strings in the
source). `none` models an absent (`undefined`) optional field. -/
structure DNSRecord where
  hostId : Option String := none
  name : String
  type : RecordType
  address : String
  mxPref : Option String := none
  ttl : Option String := none
deriving DecidableEq, Repr

/-- A `Partial<DNSRecord>`: the fields present in a criteria or updates
mapping. `some v` means the key is present with the defined value `v`;
`none` means the key is absent. -/
structure PartialRecord where
  hostId : Option String := none
  name : Option String := none
  type : Option RecordType := none
  address : Option String := none
  mxPref : Option String := none
  ttl : Option String := none
deriving DecidableEq, Repr

/-- JavaScript truthiness of an optional string: `undefined` and the empty
string are falsy, every other string is truthy. Used for the
`if (record.mxPref)` / `if (record.ttl)` guards in `setDNSRecords`. -/
def jsTruthyStr : Option String → Bool
  | none => false
  | some s => !(s == "")

/-- The record data actually carried by the posted `setHosts` parameters for
one record: `setDNSRecords` sends `HostName{i}`, `RecordType{i}`,
`Address{i}`, and sends `MXPref{i}` / `TTL{i}` only when the field is truthy
(lines 197-204 of `namecheap-client.ts`). No host identifier is transmitted,
so the stored record carries none of the caller's `hostId`. -/
def postedRecord (r : DNSRecord) : DNSRecord :=
  { hostId := none
    name := r.name
    type := r.type
    address := r.address
    mxPref := if jsTruthyStr r.mxPref then r.mxPref else none
    ttl := if jsTruthyStr r.ttl then r.ttl else none }

/-- Reading the zone returns the remote's current record set
(`getDNSRecords`, lines 167-185). The zone state is the list of records the
remote currently stores. -/
def getDNSRecords (zone : List DNSRecord) : List DNSRecord := zone

/-- Modelled from the spec (the remote registrar is not part of this
repository): `setDNSRecords` (lines 187-207) is a full-replace write, and
the remote stores exactly the record data carried by the posted parameters —
each record reduced to its wire form by `postedRecord`. The remote-assigned
host identifier is not derivable from the posted parameters and is modelled
as absent. Returns the new zone state. -/
def setDNSRecords (records : List DNSRecord) : List DNSRecord :=
  records.map postedRecord

/-- The indexed parameter list built by `setDNSRecords` for one record
(1-based index `num`). -/
def hostParams (num : Nat) (r : DNSRecord) : List (String × String) :=
  [("HostName" ++ toString num, r.name),
   ("RecordType" ++ toString num, typeToString r.type),
   ("Address" ++ toString num, r.address)] ++
  (if jsTruthyStr r.mxPref then [("MXPref" ++ toString num, r.mxPref.getD "")] else []) ++
  (if jsTruthyStr r.ttl then [("TTL" ++ toString num, r.ttl.getD "")] else [])

/-- The full parameter list posted by `setDNSRecords` (lines 192-204). -/
def setHostsParams (sld tld : String) (records : List DNSRecord) : List (String × String) :=
  [("SLD", sld), ("TLD", tld)] ++
  (records.enum.flatMap fun p => hostParams (p.1 + 1) p.2)

/-- `addDNSRecord` (lines 209-218): read the current set, append the record,
write the full set back. Returns the new zone state. -/
def addDNSRecord (zone : List DNSRecord) (record : DNSRecord) : List DNSRecord :=
  setDNSRecords (getDNSRecords zone ++ [record])

/-- The criteria check of `updateDNSRecord` / `deleteDNSRecord`:
`Object.entries(criteria).every(([key, value]) => record[key] === value)` —
every field present in the criteria must equal the record's field; absent
fields are wildcards. -/
def matchesCriteria (criteria : PartialRecord) (record : DNSRecord) : Bool :=
  (match criteria.hostId with | none => true | some v => decide (record.hostId = some v)) &&
  (match criteria.name with | none => true | some v => decide (record.name = v)) &&
  (match criteria.type with | none => true | some v => decide (record.type = v)) &&
  (match criteria.address with | none => true | some v => decide (record.address = v)) &&
  (match criteria.mxPref with | none => true | some v => decide (record.mxPref = some v)) &&
  (match criteria.ttl with | none => true | some v => decide (record.ttl = some v))

/-- The spread merge `{ ...record, ...updates }`: every field present in
`updates` overrides the record's field; absent fields keep the record's
value. -/
def applyUpdates (updates : PartialRecord) (record : DNSRecord) : DNSRecord :=
  { hostId := updates.hostId.or record.hostId
    name := updates.name.getD record.name
    type := updates.type.getD record.type
    address := updates.address.getD record.address
    mxPref := updates.mxPref.or record.mxPref
    ttl := updates.ttl.or record.ttl }

/-- The `updatedRecords` list computed by `updateDNSRecord` (lines 228-237):
the record set that is passed to `setDNSRecords`. -/
def updatedRecords (zone : List DNSRecord) (criteria updates : PartialRecord) :
    List DNSRecord :=
  (getDNSRecords zone).map fun record =>
    if matchesCriteria criteria record then applyUpdates updates record else record

/-- `updateDNSRecord` (lines 220-240): read, map matching records through the
merge, write the full set back. Returns the new zone state. -/
def updateDNSRecord (zone : List DNSRecord) (criteria updates : PartialRecord) :
    List DNSRecord :=
  setDNSRecords (updatedRecords zone criteria updates)

/-- The `filteredRecords` list computed by `deleteDNSRecord` (lines 246-250):
the record set that is passed to `setDNSRecords`. -/
def filteredRecords (zone : List DNSRecord) (criteria : PartialRecord) :
    List DNSRecord :=
  (getDNSRecords zone).filter fun record => !(matchesCriteria criteria record)

/-- `deleteDNSRecord` (lines 242-253): read, drop matching records, write the
remainder back. Returns the new zone state. -/
def deleteDNSRecord (zone : List DNSRecord) (criteria : PartialRecord) :
    List DNSRecord :=
  setDNSRecords (filteredRecords zone criteria)

/-- Propositional reading of the criteria check, following the claims'
wording: every field present in the criteria equals the record's
corresponding field. -/
def MatchesSpec (criteria : PartialRecord) (record : DNSRecord) : Prop :=
  (∀ v, criteria.hostId = some v → record.hostId = some v) ∧
  (∀ v, criteria.name = some v → record.name = v) ∧
  (∀ v, criteria.type = some v → record.type = v) ∧
  (∀ v, criteria.address = some v → record.address = v) ∧
  (∀ v, criteria.mxPref = some v → record.mxPref = some v) ∧
  (∀ v, criteria.ttl = some v → record.ttl = some v)

theorem matchesCriteria_iff (criteria : PartialRecord) (record : DNSRecord) :
    matchesCriteria criteria record = true ↔ MatchesSpec criteria record := by
  obtain ⟨h₁, h₂, h₃, h₄, h₅, h₆⟩ := criteria
  cases h₁ <;> cases h₂ <;> cases h₃ <;> cases h₄ <;> cases h₅ <;> cases h₆ <;>
    simp [matchesCriteria, MatchesSpec, and_assoc]

/-- A value in the xml2js-parsed response tree. An element carries its
attribute list (the `$` object exists only when the list is non-empty), its
named child arrays, and its optional text content (the `_` key). A text-only
element is collapsed by xml2js to a plain string. -/
inductive XVal where
  | str (s : String)
  | elem (attrs : List (String × String)) (children : List (String × List XVal))
      (text : Option String)

/-- Attribute lookup inside a `$` object. -/
def alookup (attrs : List (String × String)) (k : String) : Option String :=
  (attrs.find? fun p => p.1 == k).map (fun p => p.2)

/-- Models `v.$`: `none` when the value is a plain string or the element has
no attributes (xml2js omits the `$` key in that case). -/
def attrsOf : XVal → Option (List (String × String))
  | .str _ => none
  | .elem attrs _ _ => if attrs.isEmpty then none else some attrs

/-- Models `v.K` for a child element name `K`: the child array, or `none`
(JavaScript `undefined`) when absent or when `v` is a plain string. -/
def childrenOf : XVal → String → Option (List XVal)
  | .str _, _ => none
  | .elem _ children _, k => (children.find? fun p => p.1 == k).map (fun p => p.2)

/-- Models `v._`: the text content, `undefined` for plain strings (a string
has no `_` property) and for elements without mixed text. -/
def textOf : XVal → Option String
  | .str _ => none
  | .elem _ _ t => t

/-- Stand-in for the message of the TypeError raised by JavaScript when a
property of `undefined` is accessed. -/
def tyMsg : String := "Cannot read properties of undefined"

/-- Models the chain `v.K[0]` followed by a further property access: absence
of the child array (indexing `undefined`) or an empty array (accessing a
property of `undefined`) raises a TypeError. -/
def prop0 (v : XVal) (k : String) : Except String XVal :=
  match childrenOf v k with
  | none => .error tyMsg
  | some l =>
    match l with
    | [] => .error tyMsg
    | x :: _ => .ok x

/-- The `NamecheapError` class: message, optional code, optional wrapped
cause (the `details` constructor argument, reduced to the cause's message). -/
structure NamecheapError where
  message : String
  code : Option String := none
  details : Option String := none
deriving DecidableEq, Repr

/-- The wrapper applied by `makeRequest`'s catch block to any non-
`NamecheapError` failure (lines 86-90): code `REQUEST_FAILED`, message
prefixed with `API request failed: `, cause kept in `details`. -/
def requestFailed (m : String) : NamecheapError :=
  { message := "API request failed: " ++ m
    code := some "REQUEST_FAILED"
    details := some m }

/-- The outcome of the HTTP POST plus XML parse underneath `makeRequest`:
either the parsed `ApiResponse` root element, or a transport-level failure
(connection refused, timeout, malformed body) with the thrown error's
message. -/
inductive FetchOutcome where
  | ok (apiResponse : XVal)
  | transportFail (message : String)

/-- Models lines 77-78: `apiResponse.Errors[0].Error[0]` and the
`NamecheapError(error._, error.$.Number)` built from it. A TypeError thrown
along the chain is returned as `.error` with its message. -/
def firstErrorOf (resp : XVal) : Except String NamecheapError :=
  match childrenOf resp "Errors" with
  | none => .error tyMsg
  | some l =>
    match l with
    | [] => .error tyMsg
    | e0 :: _ =>
      match childrenOf e0 "Error" with
      | none => .error tyMsg
      | some l2 =>
        match l2 with
        | [] => .error tyMsg
        | err :: _ =>
          match attrsOf err with
          | none => .error tyMsg
          | some a => .ok { message := (textOf err).getD ""
                            code := alookup a "Number"
                            details := none }

/-- `makeRequest` (lines 60-92) given the fetch outcome: a transport failure
is wrapped as `REQUEST_FAILED`; a response whose `Status` attribute is
`ERROR` raises the first reported error pair verbatim (and shape failures
while extracting it are wrapped); otherwise the response tree is returned.
A thrown `NamecheapError` is re-raised unchanged by the catch block. -/
def makeRequest (fo : FetchOutcome) : Except NamecheapError XVal :=
  match fo with
  | .transportFail m => .error (requestFailed m)
  | .ok resp =>
    match attrsOf resp with
    | none => .error (requestFailed tyMsg)
    | some attrs =>
      if alookup attrs "Status" == some "ERROR" then
        match firstErrorOf resp with
        | .error m => .error (requestFailed m)
        | .ok e => .error e
      else .ok resp

/-- An error surfacing from a facade operation: either the `NamecheapError`
raised by `makeRequest`, or a TypeError thrown by the result-shape access
code outside `makeRequest`'s try block. -/
inductive ClientError where
  | api (e : NamecheapError)
  | js (message : String)
deriving DecidableEq, Repr

/-- The `NamecheapConfig` passed to the client constructor. -/
structure NamecheapConfig where
  apiUser : String
  apiKey : String
  clientIp : String
  sandbox : Bool := false
deriving DecidableEq, Repr

/-- The base URL selected by the constructor (lines 55-57). -/
def apiUrl (config : NamecheapConfig) : String :=
  if config.sandbox then "https://api.sandbox.namecheap.com/xml.response"
  else "https://api.namecheap.com/xml.response"

/-- The request parameter object built by `makeRequest` (lines 61-68): the
identity parameters first, then the caller's params spread over them. A
later entry with the same key overrides an earlier one, as in a JavaScript
object literal. -/
def requestParams (config : NamecheapConfig) (command : String)
    (params : List (String × String)) : List (String × String) :=
  [("ApiUser", config.apiUser),
   ("ApiKey", config.apiKey),
   ("UserName", config.apiUser),
   ("ClientIp", config.clientIp),
   ("Command", command)] ++ params

/-- Key lookup with JavaScript object-literal semantics: the last entry for
a key wins. -/
def jsObjLookup (l : List (String × String)) (k : String) : Option String :=
  (l.reverse.find? fun p => p.1 == k).map (fun p => p.2)

/-- The `DomainCheckResult` produced by `checkDomain`. The premium price is
kept as the raw attribute string (only forwarded when truthy, matching the
`result.$.PremiumRegistrationPrice ? parseFloat(...) : undefined` guard);
the `parseFloat` numeric conversion itself is not modelled. -/
structure DomainCheckResult where
  domain : Option String
  available : Bool
  isPremium : Bool
  premiumPriceRaw : Option String
deriving DecidableEq, Repr

/-- `checkDomain` (lines 95-109): one gateway call, then
`response.CommandResponse[0].DomainCheckResult[0].$` field extraction. -/
def checkDomain (fo : FetchOutcome) : Except ClientError DomainCheckResult :=
  match makeRequest fo with
  | .error e => .error (.api e)
  | .ok resp =>
    match prop0 resp "CommandResponse" with
    | .error m => .error (.js m)
    | .ok cr =>
      match prop0 cr "DomainCheckResult" with
      | .error m => .error (.js m)
      | .ok dcr =>
        match attrsOf dcr with
        | .none => .error (.js tyMsg)
        | .some a =>
          .ok { domain := alookup a "Domain"
                available := alookup a "Available" == some "true"
                isPremium := alookup a "IsPremiumName" == some "true"
                premiumPriceRaw :=
                  if jsTruthyStr (alookup a "PremiumRegistrationPrice") then
                    alookup a "PremiumRegistrationPrice"
                  else none }

/-- The contact record accepted by `registerDomain`. -/
structure ContactInfo where
  firstName : String
  lastName : String
  address1 : String
  city : String
  stateProvince : String
  postalCode : String
  country : String
  phone : String
  emailAddress : String
deriving DecidableEq, Repr

/-- The parameter object built by `registerDomain` (lines 271-311): domain
and years, then the caller's single contact record written out once per
contact role (AuxBilling, Tech, Admin, Registrant). -/
def registerParams (domain : String) (years : Nat) (c : ContactInfo) :
    List (String × String) :=
  [("DomainName", domain),
   ("Years", toString years),
   ("AuxBillingFirstName", c.firstName),
   ("AuxBillingLastName", c.lastName),
   ("AuxBillingAddress1", c.address1),
   ("AuxBillingCity", c.city),
   ("AuxBillingStateProvince", c.stateProvince),
   ("AuxBillingPostalCode", c.postalCode),
   ("AuxBillingCountry", c.country),
   ("AuxBillingPhone", c.phone),
   ("AuxBillingEmailAddress", c.emailAddress),
   ("TechFirstName", c.firstName),
   ("TechLastName", c.lastName),
   ("TechAddress1", c.address1),
   ("TechCity", c.city),
   ("TechStateProvince", c.stateProvince),
   ("TechPostalCode", c.postalCode),
   ("TechCountry", c.country),
   ("TechPhone", c.phone),
   ("TechEmailAddress", c.emailAddress),
   ("AdminFirstName", c.firstName),
   ("AdminLastName", c.lastName),
   ("AdminAddress1", c.address1),
   ("AdminCity", c.city),
   ("AdminStateProvince", c.stateProvince),
   ("AdminPostalCode", c.postalCode),
   ("AdminCountry", c.country),
   ("AdminPhone", c.phone),
   ("AdminEmailAddress", c.emailAddress),
   ("RegistrantFirstName", c.firstName),
   ("RegistrantLastName", c.lastName),
   ("RegistrantAddress1", c.address1),
   ("RegistrantCity", c.city),
   ("RegistrantStateProvince", c.stateProvince),
   ("RegistrantPostalCode", c.postalCode),
   ("RegistrantCountry", c.country),
   ("RegistrantPhone", c.phone),
   ("RegistrantEmailAddress", c.emailAddress)]

/-- The `(domainId, orderId)` pair returned by `registerDomain`; attribute
absence yields `undefined`, modelled as `none`. -/
structure RegResult where
  domainId : Option String
  orderId : Option String
deriving DecidableEq, Repr

/-- `registerDomain` on the client (lines 256-320): one `domains.create`
gateway call (its parameters are `registerParams`), then
`response.CommandResponse[0].DomainCreateResult[0].$` field extraction.
Gateway errors propagate unchanged. -/
def registerDomain (fo : FetchOutcome) : Except ClientError RegResult :=
  match makeRequest fo with
  | .error e => .error (.api e)
  | .ok resp =>
    match prop0 resp "CommandResponse" with
    | .error m => .error (.js m)
    | .ok cr =>
      match prop0 cr "DomainCreateResult" with
      | .error m => .error (.js m)
      | .ok r =>
        match attrsOf r with
        | .none => .error (.js tyMsg)
        | .some a => .ok { domainId := alookup a "DomainID", orderId := alookup a "OrderID" }

/-- One parsed host entry of `getDNSRecords` (lines 177-184): every field is
an attribute lookup, `undefined` when the attribute is absent. -/
structure RawHost where
  hostId : Option String
  name : Option String
  type : Option String
  address : Option String
  mxPref : Option String
  ttl : Option String
deriving DecidableEq, Repr

/-- The per-host mapping of `getDNSRecords`: `host.$.HostId` and friends.
Accessing `.$` of a plain string or of an attribute-less element yields
`undefined`, so the first field access throws. -/
def parseHost (h : XVal) : Except String RawHost :=
  match attrsOf h with
  | none => .error tyMsg
  | some a =>
    .ok { hostId := alookup a "HostId"
          name := alookup a "Name"
          type := alookup a "Type"
          address := alookup a "Address"
          mxPref := alookup a "MXPref"
          ttl := alookup a "TTL" }

/-- The SLD computed by `getDNSRecords` / `setDNSRecords`:
`domain.split('.')[0]`. -/
def sldOf (domain : String) : String :=
  ((domain.splitOn ".").headD "")

/-- The TLD computed by `getDNSRecords` / `setDNSRecords`:
`domain.split('.').slice(1).join('.')`. -/
def tldOf (domain : String) : String :=
  String.intercalate "." ((domain.splitOn ".").tail)

/-- The response-parsing half of `getDNSRecords` (lines 176-184):
`response.CommandResponse[0].DomainDNSGetHostsResult[0].host || []`, then the
per-host attribute mapping. An absent `host` child array (and also a
collapsed text-only result element) yields the empty list rather than an
error. -/
def getDNSRecordsParse (fo : FetchOutcome) : Except ClientError (List RawHost) :=
  match makeRequest fo with
  | .error e => .error (.api e)
  | .ok resp =>
    match prop0 resp "CommandResponse" with
    | .error m => .error (.js m)
    | .ok cr =>
      match prop0 cr "DomainDNSGetHostsResult" with
      | .error m => .error (.js m)
      | .ok hostsResult =>
        match (childrenOf hostsResult "host").getD [] |>.mapM parseHost with
        | .error m => .error (.js m)
        | .ok hosts => .ok hosts

/-- One parsed domain entry of `listDomains` (lines 135-142). -/
structure RawDomain where
  domainName : Option String
  created : Option String
  expires : Option String
  isLocked : Bool
  isAutoRenew : Bool
  whoisGuard : Bool
deriving DecidableEq, Repr

/-- The per-domain mapping of `listDomains`: `domain.$.Name` and friends. -/
def parseDomainEntry (d : XVal) : Except String RawDomain :=
  match attrsOf d with
  | none => .error tyMsg
  | some a =>
    .ok { domainName := alookup a "Name"
          created := alookup a "Created"
          expires := alookup a "Expires"
          isLocked := alookup a "IsLocked" == some "true"
          isAutoRenew := alookup a "AutoRenew" == some "true"
          whoisGuard := alookup a "WhoisGuard" == some "ENABLED" }

/-- Greedy base-10 digit-prefix accumulation for `parseInt` semantics. -/
def digitsVal : List Char → Nat → Nat
  | [], acc => acc
  | c :: rest, acc =>
    if c.isDigit then digitsVal rest (acc * 10 + (c.toNat - 48)) else acc

/-- The longest leading digit run; `none` (NaN) when there is none. -/
def digitsPrefixVal (cs : List Char) : Option Nat :=
  match cs with
  | [] => none
  | c :: _ => if c.isDigit then some (digitsVal cs 0) else none

/-- JavaScript `parseInt(s, 10)`: skip leading whitespace, accept an optional
sign, read the longest digit run, ignore anything after it; `none` models
NaN. -/
def jsParseInt10 (s : String) : Option Int :=
  match s.toList.dropWhile Char.isWhitespace with
  | '-' :: rest => (digitsPrefixVal rest).map (fun n => -(n : Int))
  | '+' :: rest => (digitsPrefixVal rest).map (fun n => (n : Int))
  | cs => (digitsPrefixVal cs).map (fun n => (n : Int))

/-- The result of `listDomains`: the parsed domain entries and the
`totalItems` count (`none` models NaN from `parseInt` on a missing or
non-numeric attribute). -/
structure DomainListResult where
  domains : List RawDomain
  totalItems : Option Int
deriving DecidableEq, Repr

/-- `listDomains` (lines 126-148): one gateway call, then
`response.Paging[0].$` (a TypeError if `Paging` is absent),
`response.CommandResponse[0].DomainGetListResult[0].Domain || []` with the
per-domain mapping, and `parseInt(paging.TotalItems, 10)` — which throws if
the paging element carried no attributes, and yields NaN if the attribute is
absent or non-numeric. -/
def listDomains (fo : FetchOutcome) : Except ClientError DomainListResult :=
  match makeRequest fo with
  | .error e => .error (.api e)
  | .ok resp =>
    match prop0 resp "Paging" with
    | .error m => .error (.js m)
    | .ok paging =>
      match prop0 resp "CommandResponse" with
      | .error m => .error (.js m)
      | .ok cr =>
        match prop0 cr "DomainGetListResult" with
        | .error m => .error (.js m)
        | .ok dglr =>
          match (childrenOf dglr "Domain").getD [] |>.mapM parseDomainEntry with
          | .error m => .error (.js m)
          | .ok ds =>
            match attrsOf paging with
            | none => .error (.js tyMsg)
            | some pa =>
              .ok { domains := ds
                    totalItems :=
                      match alookup pa "TotalItems" with
                      | none => none
                      | some s => jsParseInt10 s }

/-- A `{ type, text }` entry of a tool result's content array. -/
structure ToolContent where
  type : String
  text : String
deriving DecidableEq, Repr

/-- The `{ content: [...] }` value returned by a tool handler. -/
structure ToolResult where
  content : List ToolContent
deriving DecidableEq, Repr

/-- The validated arguments of the `register-domain` tool. -/
structure RegisterArgs where
  domain : String
  years : Nat
  firstName : String
  lastName : String
  address : String
  city : String
  stateProvince : String
  postalCode : String
  country : String
  phone : String
  email : String
deriving DecidableEq, Repr

/-- The contact record the tool passes to `client.registerDomain`
(lines 194-204 of `tools/domains.ts`). -/
def toContact (a : RegisterArgs) : ContactInfo :=
  { firstName := a.firstName
    lastName := a.lastName
    address1 := a.address
    city := a.city
    stateProvince := a.stateProvince
    postalCode := a.postalCode
    country := a.country
    phone := a.phone
    emailAddress := a.email }

/-- `error instanceof Error ? error.message : 'Unknown error'` — both
modelled error kinds are `Error` instances and expose their message. -/
def errMessage : ClientError → String
  | .api e => e.message
  | .js m => m

/-- String interpolation of a possibly-`undefined` value. -/
def jsShow (o : Option String) : String := o.getD "undefined"

/-- The success message of the `register-domain` tool (line 209). -/
def registerSuccessText (args : RegisterArgs) (r : RegResult) : String :=
  "Successfully registered " ++ args.domain ++ " for " ++ toString args.years ++
    " year(s)!\n\nDomain ID: " ++ jsShow r.domainId ++ "\nOrder ID: " ++ jsShow r.orderId

/-- The not-available message of the `register-domain` tool (line 188). -/
def notAvailableText (args : RegisterArgs) : String :=
  "Domain " ++ args.domain ++ " is not available for registration."

/-- `registerDomainTool.execute` (lines 179-216 of `tools/domains.ts`):
check availability first; when the domain is unavailable return a normal
text result; otherwise call `client.registerDomain` (whose create-call
parameters are `registerParams args.domain args.years (toContact args)`).
Any thrown error is re-thrown as a generic `Error` with a prefixed message.
`checkFo` and `createFo` are the fetch outcomes of the availability call and
of the registration call. -/
def registerDomainToolExecute (args : RegisterArgs) (checkFo createFo : FetchOutcome) :
    Except String ToolResult :=
  match checkDomain checkFo with
  | .error e => .error ("Failed to register domain: " ++ errMessage e)
  | .ok availability =>
    if !availability.available then
      .ok { content := [{ type := "text", text := notAvailableText args }] }
    else
      match registerDomain createFo with
      | .error e => .error ("Failed to register domain: " ++ errMessage e)
      | .ok result =>
        .ok { content := [{ type := "text", text := registerSuccessText args result }] }

/-- The suffix/value pairs of one contact role block in `registerParams`. -/
def contactPairs (c : ContactInfo) : List (String × String) :=
  [("FirstName", c.firstName),
   ("LastName", c.lastName),
   ("Address1", c.address1),
   ("City", c.city),
   ("StateProvince", c.stateProvince),
   ("PostalCode", c.postalCode),
   ("Country", c.country),
   ("Phone", c.phone),
   ("EmailAddress", c.emailAddress)]

/-- The four contact roles required by the remote registrar. -/
def contactRoles : List String := ["AuxBilling", "Tech", "Admin", "Registrant"]

theorem find?_first {α : Type} (p : α → Bool) :
    ∀ (l₁ l₂ : List α), (l₁ ++ l₂).find? p =
      match l₁.find? p with
      | some x => some x
      | none => l₂.find? p := by
  intro l₁ l₂
  induction l₁ with
  | nil => simp
  | cons a l ih =>
    by_cases h : p a
    · simp [List.find?_cons_of_pos, h]
    · simp only [List.cons_append, List.find?_cons_of_neg _ h, ih]

theorem jsObjLookup_append (l₁ l₂ : List (String × String)) (k : String) :
    jsObjLookup (l₁ ++ l₂) k =
      match jsObjLookup l₂ k with
      | some v => some v
      | none => jsObjLookup l₁ k := by
  simp only [jsObjLookup, List.reverse_append, find?_first]
  cases h : l₂.reverse.find? (fun p => p.1 == k) <;> simp [h]

theorem map_posted_of_fixed {zone : List DNSRecord}
    (h : ∀ r ∈ zone, postedRecord r = r) : zone.map postedRecord = zone := by
  have h2 : zone.map postedRecord = zone.map id := List.map_congr_left (fun a ha => h a ha)
  rw [h2, List.map_id]

/-- Every record stored by a write through `setDNSRecords` is a fixed point
of `postedRecord`: zones written by this client never carry caller host
identifiers or empty-string optional fields. -/
theorem posted_opt_norm (o : Option String) :
    (if jsTruthyStr (if jsTruthyStr o then o else none) then
      (if jsTruthyStr o then o else none) else none) =
      if jsTruthyStr o then o else none := by
  cases o with
  | none => simp [jsTruthyStr]
  | some s => by_cases h : s = "" <;> simp [jsTruthyStr, h]

theorem postedRecord_idem (r : DNSRecord) :
    postedRecord (postedRecord r) = postedRecord r := by
  simp only [postedRecord, posted_opt_norm]

theorem setDNSRecords_wire_normal (records : List DNSRecord) :
    ∀ r ∈ setDNSRecords records, postedRecord r = r := by
  intro r hr
  simp only [setDNSRecords, List.mem_map] at hr
  obtain ⟨s, _, rfl⟩ := hr
  exact postedRecord_idem s

/-- Zone and record used in the counterexample to claim C1: a stored record
carrying a remote host identifier, and a new caller record carrying an
empty-string MX preference. -/
def zoneCex1 : List DNSRecord :=
  [{ hostId := some "5", name := "a", type := .A, address := "1.1.1.1" }]

def recCex1 : DNSRecord :=
  { name := "x", type := .MX, address := "mail.example.com", mxPref := some "" }

def zoneW1 : List DNSRecord :=
  [{ name := "a", type := .A, address := "1.1.1.1" }]

def recW1 : DNSRecord :=
  { name := "w", type := .CNAME, address := "target.example.com", ttl := some "300" }

def zoneCex5 : List DNSRecord :=
  [{ hostId := some "7", name := "b", type := .A, address := "2.2.2.2", mxPref := some "" }]

def zoneW5 : List DNSRecord :=
  [{ name := "a", type := .A, address := "1.1.1.1" },
   { name := "mail", type := .MX, address := "mx.example.com", mxPref := some "10" }]

/-- C1 (corrected, counterexample): with a zone whose record carries a
remote host identifier and a new record carrying an empty-string `mxPref`,
the record set read back after `addDNSRecord` is not `Z ++ [R]` — not even
as a set: the write transmits no host identifier and omits falsy optional
fields, so both records come back altered. -/
theorem addDNSRecord_drops_fields :
    getDNSRecords (addDNSRecord zoneCex1 recCex1) ≠ getDNSRecords zoneCex1 ++ [recCex1] ∧
    (getDNSRecords (addDNSRecord zoneCex1 recCex1)).toFinset ≠
      (getDNSRecords zoneCex1 ++ [recCex1]).toFinset := by
  constructor <;> decide

/-- C1 (amended): `addDNSRecord` reads the current set, appends the record
and writes the full set back, so the set read back afterwards is the wire
form (`postedRecord`) of every prior record followed by the wire form of the
new record; in particular, when every record of the zone and the new record
are fixed points of the wire form (no caller host identifier, no
empty-string `mxPref`/`ttl`), the read-back is exactly `Z ++ [R]`. -/
theorem addDNSRecord_preserves_records (zone : List DNSRecord) (record : DNSRecord) :
    getDNSRecords (addDNSRecord zone record) =
      zone.map postedRecord ++ [postedRecord record] ∧
    ((∀ r ∈ zone, postedRecord r = r) → postedRecord record = record →
      getDNSRecords (addDNSRecord zone record) = zone ++ [record]) := by
  constructor
  · simp [getDNSRecords, addDNSRecord, setDNSRecords]
  · intro h1 h2
    simp [getDNSRecords, addDNSRecord, setDNSRecords, map_posted_of_fixed h1, h2]

theorem addDNSRecord_preserves_records_witness :
    getDNSRecords (addDNSRecord zoneW1 recW1) = zoneW1 ++ [recW1] :=
  (addDNSRecord_preserves_records zoneW1 recW1).2 (by decide) (by decide)

/-- C5 (corrected, counterexample): writing back exactly what was read does
not leave the zone unchanged for a record carrying a remote host identifier
and an empty-string `mxPref`: the round trip loses both fields, so the
record sets differ even as sets. -/
theorem setDNSRecords_roundtrip_changes_zone :
    setDNSRecords (getDNSRecords zoneCex5) ≠ zoneCex5 ∧
    (setDNSRecords (getDNSRecords zoneCex5)).toFinset ≠ zoneCex5.toFinset := by
  constructor <;> decide

/-- C5 (amended): the read-then-write round trip maps every record to its
wire form; for zones whose records are fixed points of the wire form — in
particular any zone most recently written through `setDNSRecords` itself —
the round trip leaves the record set literally (hence as a set) unchanged. -/
theorem setDNSRecords_roundtrip (zone : List DNSRecord) :
    setDNSRecords (getDNSRecords zone) = zone.map postedRecord ∧
    ((∀ r ∈ zone, postedRecord r = r) → setDNSRecords (getDNSRecords zone) = zone) := by
  constructor
  · rfl
  · intro h
    simp only [setDNSRecords, getDNSRecords, map_posted_of_fixed h]

theorem setDNSRecords_roundtrip_witness :
    setDNSRecords (getDNSRecords zoneW5) = zoneW5 :=
  (setDNSRecords_roundtrip zoneW5).2 (by decide)

theorem matchesCriteria_false_of_not_spec {criteria : PartialRecord} {record : DNSRecord}
    (h : ¬ MatchesSpec criteria record) : matchesCriteria criteria record = false := by
  cases hb : matchesCriteria criteria record with
  | false => rfl
  | true => exact absurd ((matchesCriteria_iff criteria record).1 hb) h

/-- C2: `updateDNSRecord` computes the written set by mapping the records
just read: every record matching all fields present in the criteria is
replaced by the spread merge of its fields with the updates, every other
record passes through unchanged; the new zone state is the full-replace
write of that list. -/
theorem updateDNSRecord_matches_all_criteria (zone : List DNSRecord)
    (criteria updates : PartialRecord) :
    (updatedRecords zone criteria updates).length = (getDNSRecords zone).length ∧
    (∀ (i : Nat) (r : DNSRecord), (getDNSRecords zone)[i]? = some r →
      (MatchesSpec criteria r →
        (updatedRecords zone criteria updates)[i]? = some (applyUpdates updates r)) ∧
      (¬ MatchesSpec criteria r →
        (updatedRecords zone criteria updates)[i]? = some r)) ∧
    updateDNSRecord zone criteria updates = setDNSRecords (updatedRecords zone criteria updates) := by
  refine ⟨by simp [updatedRecords], ?_, rfl⟩
  intro i r h
  constructor
  · intro hm
    have hc : matchesCriteria criteria r = true := (matchesCriteria_iff criteria r).2 hm
    simp [updatedRecords, List.getElem?_map, h, hc]
  · intro hm
    have hc : matchesCriteria criteria r = false := matchesCriteria_false_of_not_spec hm
    simp [updatedRecords, List.getElem?_map, h, hc]

def zoneW2 : List DNSRecord :=
  [{ name := "a", type := .A, address := "1.1.1.1" },
   { name := "b", type := .A, address := "2.2.2.2" }]

def critW2 : PartialRecord := { name := some "a", type := some .A }

def updW2 : PartialRecord := { address := some "9.9.9.9" }

theorem updateDNSRecord_matches_all_criteria_witness :
    (updatedRecords zoneW2 critW2 updW2)[0]? =
      some (applyUpdates updW2 { name := "a", type := .A, address := "1.1.1.1" }) ∧
    (updatedRecords zoneW2 critW2 updW2)[1]? =
      some { name := "b", type := .A, address := "2.2.2.2" } := by
  have h := (updateDNSRecord_matches_all_criteria zoneW2 critW2 updW2).2.1
  refine ⟨(h 0 _ rfl).1 ?_, (h 1 _ rfl).2 ?_⟩
  · exact (matchesCriteria_iff critW2 _).1 (by decide)
  · intro hm
    exact absurd ((matchesCriteria_iff critW2 _).2 hm) (by decide)

/-- C3: the written set of `deleteDNSRecord` is the filter of the records
just read keeping exactly the non-matching ones: a record matching every
field present in the criteria is removed, a record failing any one criteria
field survives unchanged (membership preserved); the new zone state is the
full-replace write of that list. -/
theorem deleteDNSRecord_exact_match (zone : List DNSRecord) (criteria : PartialRecord) :
    filteredRecords zone criteria =
      (getDNSRecords zone).filter (fun r => !(matchesCriteria criteria r)) ∧
    (∀ r, matchesCriteria criteria r = true ↔ MatchesSpec criteria r) ∧
    (∀ r, MatchesSpec criteria r → r ∉ filteredRecords zone criteria) ∧
    (∀ r, ¬ MatchesSpec criteria r →
      (r ∈ filteredRecords zone criteria ↔ r ∈ getDNSRecords zone)) ∧
    deleteDNSRecord zone criteria = setDNSRecords (filteredRecords zone criteria) := by
  refine ⟨rfl, fun r => matchesCriteria_iff criteria r, ?_, ?_, rfl⟩
  · intro r hm hr
    have := (List.mem_filter.1 hr).2
    rw [(matchesCriteria_iff criteria r).2 hm] at this
    simp at this
  · intro r hm
    have hc : matchesCriteria criteria r = false := matchesCriteria_false_of_not_spec hm
    simp [filteredRecords, List.mem_filter, hc, getDNSRecords]

def zoneW3 : List DNSRecord :=
  [{ name := "a", type := .A, address := "1.1.1.1" },
   { name := "a", type := .TXT, address := "v=spf1 -all" }]

def critW3 : PartialRecord := { name := some "a", type := some .A }

theorem deleteDNSRecord_exact_match_witness :
    ({ name := "a", type := .A, address := "1.1.1.1" } : DNSRecord) ∉
      filteredRecords zoneW3 critW3 ∧
    ({ name := "a", type := .TXT, address := "v=spf1 -all" } : DNSRecord) ∈
      filteredRecords zoneW3 critW3 := by
  have h := deleteDNSRecord_exact_match zoneW3 critW3
  refine ⟨h.2.2.1 _ ?_, (h.2.2.2.1 _ ?_).2 (by decide)⟩
  · exact (matchesCriteria_iff critW3 _).1 (by decide)
  · intro hm
    exact absurd ((matchesCriteria_iff critW3 _).2 hm) (by decide)

/-- C4: when no record of the set just read matches the criteria, both
`updateDNSRecord` and `deleteDNSRecord` still perform the full-replace write
with the record set they read, unchanged; no error path exists on this
branch (both functions are total and return the written zone state). -/
theorem zero_match_is_noop_write (zone : List DNSRecord) (criteria updates : PartialRecord)
    (h : ∀ r ∈ getDNSRecords zone, ¬ MatchesSpec criteria r) :
    updatedRecords zone criteria updates = getDNSRecords zone ∧
    filteredRecords zone criteria = getDNSRecords zone ∧
    updateDNSRecord zone criteria updates = setDNSRecords (getDNSRecords zone) ∧
    deleteDNSRecord zone criteria = setDNSRecords (getDNSRecords zone) := by
  have hf : ∀ r ∈ getDNSRecords zone, matchesCriteria criteria r = false :=
    fun r hr => matchesCriteria_false_of_not_spec (h r hr)
  have h1 : updatedRecords zone criteria updates = getDNSRecords zone := by
    have := List.map_congr_left (l := getDNSRecords zone)
      (f := fun record => if matchesCriteria criteria record then applyUpdates updates record else record)
      (g := id) (fun a ha => by simp [hf a ha])
    simpa [updatedRecords] using this
  have h2 : filteredRecords zone criteria = getDNSRecords zone := by
    refine List.filter_eq_self.2 (fun a ha => ?_)
    simp [hf a ha]
  exact ⟨h1, h2, by rw [updateDNSRecord, h1], by rw [deleteDNSRecord, h2]⟩

def critW4 : PartialRecord := { name := some "nomatch" }

theorem zero_match_is_noop_write_witness :
    updatedRecords zoneW2 critW4 updW2 = getDNSRecords zoneW2 ∧
    filteredRecords zoneW2 critW4 = getDNSRecords zoneW2 := by
  have h := zero_match_is_noop_write zoneW2 critW4 updW2 ?_
  · exact ⟨h.1, h.2.1⟩
  · intro r hr
    have : r ∈ zoneW2 := hr
    simp only [zoneW2, List.mem_cons, List.mem_singleton] at this
    rcases this with rfl | rfl | h0
    · exact fun hm => absurd ((matchesCriteria_iff critW4 _).2 hm) (by decide)
    · exact fun hm => absurd ((matchesCriteria_iff critW4 _).2 hm) (by decide)
    · cases h0

theorem alookup_nonempty {attrs : List (String × String)} {k v : String}
    (h : alookup attrs k = some v) : attrs.isEmpty = false := by
  cases attrs with
  | nil => simp [alookup] at h
  | cons a l => rfl

/-- C6: when the response carries `Status=ERROR`, `makeRequest` fails with a
`NamecheapError` whose message is the text of the first `Errors` entry and
whose code is that entry's `Number` attribute, both verbatim; and
`registerDomain` propagates exactly that error. -/
theorem remote_error_propagates
    (attrs : List (String × String)) (ch : List (String × List XVal)) (txt : Option String)
    (e0attrs : List (String × String)) (e0ch : List (String × List XVal)) (e0txt : Option String)
    (rest restE : List XVal)
    (eattrs : List (String × String)) (ech : List (String × List XVal)) (t n : String)
    (h1 : alookup attrs "Status" = some "ERROR")
    (h2 : childrenOf (XVal.elem attrs ch txt) "Errors" =
      some (XVal.elem e0attrs e0ch e0txt :: rest))
    (h3 : childrenOf (XVal.elem e0attrs e0ch e0txt) "Error" =
      some (XVal.elem eattrs ech (some t) :: restE))
    (h4 : alookup eattrs "Number" = some n) :
    makeRequest (.ok (XVal.elem attrs ch txt)) =
      .error { message := t, code := some n, details := none } ∧
    registerDomain (.ok (XVal.elem attrs ch txt)) =
      .error (.api { message := t, code := some n, details := none }) := by
  have hne : attrs.isEmpty = false := alookup_nonempty h1
  have hne2 : eattrs.isEmpty = false := alookup_nonempty h4
  have hfe : firstErrorOf (XVal.elem attrs ch txt) =
      .ok { message := t, code := some n, details := none } := by
    rw [firstErrorOf]
    simp only [h2, h3, attrsOf, hne2, Bool.false_eq_true, if_false, textOf,
      Option.getD_some, h4]
  have hmr : makeRequest (.ok (XVal.elem attrs ch txt)) =
      .error { message := t, code := some n, details := none } := by
    rw [makeRequest]
    simp only [attrsOf, hne, Bool.false_eq_true, if_false, h1, hfe]
    rfl
  exact ⟨hmr, by rw [registerDomain, hmr]⟩

/-- The response tree of the C6 scenario: `Status=ERROR` with a single
error entry `Number="2019166"`, text `Domain name already exists`. -/
def respC6 : XVal :=
  XVal.elem [("Status", "ERROR")]
    [("Errors",
      [XVal.elem []
        [("Error", [XVal.elem [("Number", "2019166")] [] (some "Domain name already exists")])]
        none]),
     ("RequestedCommand", [XVal.str "namecheap.domains.create"])]
    none

theorem remote_error_propagates_witness :
    registerDomain (.ok respC6) =
      .error (.api { message := "Domain name already exists"
                     code := some "2019166"
                     details := none }) :=
  (remote_error_propagates
    [("Status", "ERROR")]
    [("Errors",
      [XVal.elem []
        [("Error", [XVal.elem [("Number", "2019166")] [] (some "Domain name already exists")])]
        none]),
     ("RequestedCommand", [XVal.str "namecheap.domains.create"])]
    none
    []
    [("Error", [XVal.elem [("Number", "2019166")] [] (some "Domain name already exists")])]
    none
    [] []
    [("Number", "2019166")] []
    "Domain name already exists" "2019166"
    rfl rfl rfl rfl).2

/-- C7: a transport-level failure is wrapped as a `NamecheapError` with code
`REQUEST_FAILED`, message prefixed with `API request failed: `, and the
underlying cause kept in `details`; an error the remote itself reported (the
value extracted by `firstErrorOf` and raised on the `Status=ERROR` branch)
carries `details := none`, so the two kinds are distinguishable for every
cause and every remote error pair. -/
theorem transport_error_distinguishable (m : String) (resp : XVal) :
    makeRequest (.transportFail m) = .error (requestFailed m) ∧
    (requestFailed m).code = some "REQUEST_FAILED" ∧
    (requestFailed m).details = some m ∧
    (∀ e, firstErrorOf resp = .ok e → e.details = none ∧ requestFailed m ≠ e) ∧
    (∀ attrs e, attrsOf resp = some attrs → alookup attrs "Status" = some "ERROR" →
      firstErrorOf resp = .ok e → makeRequest (.ok resp) = .error e) := by
  refine ⟨rfl, rfl, rfl, ?_, ?_⟩
  · intro e h
    rw [firstErrorOf] at h
    repeat' split at h
    all_goals simp only [Except.error.injEq, Except.ok.injEq, reduceCtorEq] at h
    subst h
    exact ⟨rfl, fun heq => Option.noConfusion (congrArg NamecheapError.details heq)⟩
  · intro attrs e h1 h2 h3
    rw [makeRequest]
    simp only [h1, h2, h3]
    rfl

theorem transport_error_distinguishable_witness :
    makeRequest (.transportFail "connect ECONNREFUSED") =
      .error (requestFailed "connect ECONNREFUSED") ∧
    requestFailed "connect ECONNREFUSED" ≠
      { message := "Domain name already exists", code := some "2019166", details := none } ∧
    makeRequest (.ok respC6) =
      .error { message := "Domain name already exists", code := some "2019166", details := none } := by
  have h := transport_error_distinguishable "connect ECONNREFUSED" respC6
  exact ⟨h.1, (h.2.2.2.1 _ rfl).2, h.2.2.2.2 [("Status", "ERROR")] _ rfl rfl rfl⟩

/-- Fetch outcome of the availability check for an unavailable domain. -/
def checkRespUnavail : XVal :=
  XVal.elem [("Status", "OK")]
    [("CommandResponse",
      [XVal.elem [("Type", "namecheap.domains.check")]
        [("DomainCheckResult",
          [XVal.elem [("Domain", "taken.com"), ("Available", "false")] [] none])]
        none])]
    none

def argsW8 : RegisterArgs :=
  { domain := "taken.com"
    years := 1
    firstName := "Jane"
    lastName := "Doe"
    address := "1 Main St"
    city := "Springfield"
    stateProvince := "IL"
    postalCode := "62701"
    country := "US"
    phone := "+1.5551234567"
    email := "jane@example.com" }

/-- C8: the `register-domain` tool checks availability first. When the
check reports the domain unavailable, the handler returns a normal
"not available" text result — no error — and its result does not depend on
the registration call at all; only when the check reports availability does
the handler run `client.registerDomain`, whose `domains.create` parameters
(`registerParams`) carry the single caller-supplied contact record once per
contact role (AuxBilling, Tech, Admin, Registrant). -/
theorem registerDomain_checks_availability (args : RegisterArgs)
    (checkFo createFo createFo2 : FetchOutcome) (res : DomainCheckResult)
    (h : checkDomain checkFo = .ok res) :
    (res.available = false →
      registerDomainToolExecute args checkFo createFo =
        .ok { content := [{ type := "text", text := notAvailableText args }] } ∧
      registerDomainToolExecute args checkFo createFo =
        registerDomainToolExecute args checkFo createFo2) ∧
    (res.available = true →
      registerDomainToolExecute args checkFo createFo =
        match registerDomain createFo with
        | .error e => .error ("Failed to register domain: " ++ errMessage e)
        | .ok result =>
          .ok { content := [{ type := "text", text := registerSuccessText args result }] }) ∧
    (∀ role ∈ contactRoles, ∀ p ∈ contactPairs (toContact args),
      jsObjLookup (registerParams args.domain args.years (toContact args)) (role ++ p.1) =
        some p.2) := by
  refine ⟨?_, ?_, ?_⟩
  · intro hav
    rw [registerDomainToolExecute, h]
    rw [registerDomainToolExecute, h]
    simp [hav]
  · intro hav
    rw [registerDomainToolExecute, h]
    simp [hav]
  · intro role hrole p hp
    simp only [contactRoles, List.mem_cons, List.not_mem_nil, or_false] at hrole
    simp only [contactPairs, List.mem_cons, List.not_mem_nil, or_false] at hp
    rcases hrole with rfl | rfl | rfl | rfl <;>
      rcases hp with rfl | rfl | rfl | rfl | rfl | rfl | rfl | rfl | rfl <;> rfl

theorem registerDomain_checks_availability_witness :
    registerDomainToolExecute argsW8 (.ok checkRespUnavail) (.transportFail "never issued") =
      .ok { content := [{ type := "text", text := notAvailableText argsW8 }] } ∧
    registerDomainToolExecute argsW8 (.ok checkRespUnavail) (.transportFail "never issued") =
      registerDomainToolExecute argsW8 (.ok checkRespUnavail) (.transportFail "other") ∧
    jsObjLookup (registerParams argsW8.domain argsW8.years (toContact argsW8))
        "RegistrantEmailAddress" = some "jane@example.com" := by
  have h := registerDomain_checks_availability argsW8 (.ok checkRespUnavail)
    (.transportFail "never issued") (.transportFail "other")
    { domain := some "taken.com", available := false, isPremium := false,
      premiumPriceRaw := none } rfl
  have h3 := h.2.2 "Registrant" (by decide) ("EmailAddress", "jane@example.com") (by decide)
  exact ⟨(h.1 rfl).1, (h.1 rfl).2, h3⟩

/-- C9: a success response whose hosts-result element has no `host` child
yields an empty record list from the `getHosts` parse with no error; a
success response whose list-result element has no `Domain` child yields an
empty domains list, while `totalItems` is still parsed (with `parseInt`
semantics) from the `TotalItems` attribute of the separate `Paging`
element. -/
theorem empty_results_parse (resp respL cr hr crL dglr paging : XVal)
    (a aL pa : List (String × String)) (s : String)
    (h1 : attrsOf resp = some a)
    (h2 : (alookup a "Status" == some "ERROR") = false)
    (h3 : prop0 resp "CommandResponse" = .ok cr)
    (h4 : prop0 cr "DomainDNSGetHostsResult" = .ok hr)
    (h5 : childrenOf hr "host" = none)
    (g1 : attrsOf respL = some aL)
    (g2 : (alookup aL "Status" == some "ERROR") = false)
    (g3 : prop0 respL "Paging" = .ok paging)
    (g4 : prop0 respL "CommandResponse" = .ok crL)
    (g5 : prop0 crL "DomainGetListResult" = .ok dglr)
    (g6 : childrenOf dglr "Domain" = none)
    (g7 : attrsOf paging = some pa)
    (g8 : alookup pa "TotalItems" = some s) :
    getDNSRecordsParse (.ok resp) = .ok [] ∧
    listDomains (.ok respL) = .ok { domains := [], totalItems := jsParseInt10 s } := by
  have hm1 : makeRequest (.ok resp) = .ok resp := by
    rw [makeRequest]
    simp only [h1, h2, Bool.false_eq_true, if_false]
  have hm2 : makeRequest (.ok respL) = .ok respL := by
    rw [makeRequest]
    simp only [g1, g2, Bool.false_eq_true, if_false]
  constructor
  · rw [getDNSRecordsParse]
    simp only [hm1, h3, h4, h5, Option.getD_none, List.mapM_nil]
    rfl
  · rw [listDomains]
    simp only [hm2, g3, g4, g5, g6, g7, g8, Option.getD_none, List.mapM_nil]
    rfl

/-- A `getHosts` success response with no host entries. -/
def hostsRespEmpty : XVal :=
  XVal.elem [("Status", "OK")]
    [("CommandResponse",
      [XVal.elem [("Type", "namecheap.domains.dns.getHosts")]
        [("DomainDNSGetHostsResult",
          [XVal.elem [("Domain", "example.com"), ("IsUsingOurDNS", "true")] [] none])]
        none])]
    none

/-- A `getList` success response with paging metadata but no domains. -/
def listRespEmpty : XVal :=
  XVal.elem [("Status", "OK")]
    [("Paging",
      [XVal.elem [("TotalItems", "0"), ("CurrentPage", "1"), ("PageSize", "20")] [] none]),
     ("CommandResponse",
      [XVal.elem [("Type", "namecheap.domains.getList")]
        [("DomainGetListResult", [XVal.elem [("Type", "x")] [] none])]
        none])]
    none

theorem empty_results_parse_witness :
    getDNSRecordsParse (.ok hostsRespEmpty) = .ok [] ∧
    listDomains (.ok listRespEmpty) = .ok { domains := [], totalItems := some 0 } := by
  have h := empty_results_parse hostsRespEmpty listRespEmpty
    (XVal.elem [("Type", "namecheap.domains.dns.getHosts")]
      [("DomainDNSGetHostsResult",
        [XVal.elem [("Domain", "example.com"), ("IsUsingOurDNS", "true")] [] none])]
      none)
    (XVal.elem [("Domain", "example.com"), ("IsUsingOurDNS", "true")] [] none)
    (XVal.elem [("Type", "namecheap.domains.getList")]
      [("DomainGetListResult", [XVal.elem [("Type", "x")] [] none])]
      none)
    (XVal.elem [("Type", "x")] [] none)
    (XVal.elem [("TotalItems", "0"), ("CurrentPage", "1"), ("PageSize", "20")] [] none)
    [("Status", "OK")] [("Status", "OK")]
    [("TotalItems", "0"), ("CurrentPage", "1"), ("PageSize", "20")] "0"
    rfl rfl rfl rfl rfl rfl rfl rfl rfl rfl rfl rfl rfl
  refine ⟨h.1, ?_⟩
  have h2 := h.2
  rwa [show jsParseInt10 "0" = some 0 from by decide] at h2

/-- C10: in the request object built by `makeRequest`, caller params are
spread after the identity parameters, so a caller-supplied entry for any key
— including `ApiUser`, `ApiKey`, `UserName`, `ClientIp`, `Command` —
overrides the configured value, while a request whose params avoid an
identity key always carries the configured value for it. -/
theorem caller_params_override (config : NamecheapConfig) (command : String)
    (params : List (String × String)) (k v : String) :
    (jsObjLookup params k = some v →
      jsObjLookup (requestParams config command params) k = some v) ∧
    (jsObjLookup params "ApiUser" = none →
      jsObjLookup (requestParams config command params) "ApiUser" = some config.apiUser) ∧
    (jsObjLookup params "ApiKey" = none →
      jsObjLookup (requestParams config command params) "ApiKey" = some config.apiKey) ∧
    (jsObjLookup params "UserName" = none →
      jsObjLookup (requestParams config command params) "UserName" = some config.apiUser) ∧
    (jsObjLookup params "ClientIp" = none →
      jsObjLookup (requestParams config command params) "ClientIp" = some config.clientIp) ∧
    (jsObjLookup params "Command" = none →
      jsObjLookup (requestParams config command params) "Command" = some command) := by
  refine ⟨?_, ?_, ?_, ?_, ?_, ?_⟩ <;> intro h <;>
    rw [requestParams, jsObjLookup_append, h] <;> rfl

def configW : NamecheapConfig :=
  { apiUser := "user1", apiKey := "key1", clientIp := "1.2.3.4" }

def paramsW : List (String × String) := [("Command", "evil.command"), ("SLD", "example")]

theorem caller_params_override_witness :
    jsObjLookup (requestParams configW "namecheap.domains.check" paramsW) "Command" =
      some "evil.command" ∧
    jsObjLookup (requestParams configW "namecheap.domains.check" paramsW) "ApiUser" =
      some "user1" := by
  refine ⟨(caller_params_override configW "namecheap.domains.check" paramsW
    "Command" "evil.command").1 rfl, ?_⟩
  have h := (caller_params_override configW "namecheap.domains.check" paramsW
    "Command" "evil.command").2.1 rfl
  exact h
